import Mathlib

/-!
Verification of the ScoreBoard prediction/odds engine (`odd_calculator.py` and
its collaborators) against its natural-language specification.

Modelling conventions:
* Python `float` arithmetic is modelled by exact rational arithmetic over `ℚ`.
  Every claim under consideration concerns exact values, signs or orderings of
  quantities that are produced by a handful of additions, multiplications and
  divisions, none of which is sensitive to binary floating-point rounding at
  the inputs used.
* Python exceptions are modelled with `Except PyExc`: a function that the
  source lets raise an uncaught exception returns `Except.error e`, a function
  that returns normally returns `Except.ok v`.
* Python `int(s)` is modelled by `pyInt?`, covering strings of the form
  `[+|-]digits`; the whitespace/underscore liberality of CPython's parser is
  not used by any input considered here.
* `str.split(sep)` is modelled by structurally recursive splitters for the
  separators that actually occur in the source: `'/'`, `'\n'` (one character)
  and `" - "` (three characters).
* Redis/HTTP collaborators (`fetch_and_store_match_details`, `get_league_info`,
  `fetch_standings`, `get_match_odds`, `get_last_three_matches`) are modelled
  as fields of an environment record `Env`, as the spec's §6 prescribes; their
  bodies are I/O glue outside the verified core.
* Python dicts whose keys are read with `.get(k, 0)` are modelled as records
  with total integer fields; a missing key behaves exactly like the value `0`.
-/

/-- Exceptions that the modelled code can raise. -/
inductive PyExc where
  | zeroDivisionError
  | valueError
  | attributeError
  | indexError
deriving Repr, DecidableEq

deriving instance DecidableEq for Except

/-- Value of a list of decimal digit characters, `none` if empty or non-digit. -/
def digitsVal? (cs : List Char) : Option Nat :=
  if cs.isEmpty then none
  else cs.foldl (fun acc c =>
    match acc with
    | none => none
    | some n => if c.isDigit then some (10 * n + (c.toNat - 48)) else none) (some 0)

/-- Model of Python `int(s)`: optional sign followed by at least one digit. -/
def pyInt? (s : String) : Option Int :=
  match s.data with
  | '-' :: rest => (digitsVal? rest).map (fun n => -(n : Int))
  | '+' :: rest => (digitsVal? rest).map (fun n => (n : Int))
  | cs => (digitsVal? cs).map (fun n => (n : Int))

/-- Helper for `pySplit1`: `acc` holds the current chunk reversed. -/
def splitCharAux (sep : Char) : List Char → List Char → List (List Char)
  | [], acc => [acc.reverse]
  | c :: rest, acc =>
    if c = sep then acc.reverse :: splitCharAux sep rest []
    else splitCharAux sep rest (c :: acc)

/-- Model of Python `s.split(sep)` for a one-character separator. -/
def pySplit1 (sep : Char) (s : String) : List String :=
  (splitCharAux sep s.data []).map String.mk

/-- Helper for `pySplit3`: left-to-right scan for the three-character separator. -/
def split3Aux (s0 s1 s2 : Char) : List Char → List Char → List (List Char)
  | [], acc => [acc.reverse]
  | [x], acc => [(x :: acc).reverse]
  | [x, y], acc => [(y :: x :: acc).reverse]
  | x :: y :: z :: rest, acc =>
    if x = s0 ∧ y = s1 ∧ z = s2 then acc.reverse :: split3Aux s0 s1 s2 rest []
    else split3Aux s0 s1 s2 (y :: z :: rest) (x :: acc)

/-- Model of Python `s.split(sep)` for a three-character separator. -/
def pySplit3 (s0 s1 s2 : Char) (s : String) : List String :=
  (split3Aux s0 s1 s2 s.data []).map String.mk

/-- Character-list prefix test used by `pyStartswith`. -/
def isPrefixChars : List Char → List Char → Bool
  | [], _ => true
  | _ :: _, [] => false
  | p :: ps, c :: cs => p = c && isPrefixChars ps cs

/-- Model of Python `s.startswith(pre)`. -/
def pyStartswith (pre : String) (s : String) : Bool :=
  isPrefixChars pre.data s.data

/-- Model of `numerator, denominator = map(int, fractional_odds.split('/'))`:
`some (n, d)` when the string splits into exactly two integers, `none` when the
unpacking or an `int()` call raises `ValueError`. -/
def parseTwoInts (s : String) : Option (Int × Int) :=
  match pySplit1 '/' s with
  | [a, b] =>
    match pyInt? a, pyInt? b with
    | some n, some d => some (n, d)
    | _, _ => none
  | _ => none

/-- `calculate_decimal_odds` (odd_calculator.py:451-466).  The `try` block
catches only `ValueError` (a string that does not unpack into two integers)
and then returns `2.0`; a zero denominator raises `ZeroDivisionError` inside
the division, which the `except ValueError` clause does not catch. -/
def calculate_decimal_odds (fractional_odds : String) : Except PyExc ℚ :=
  match parseTwoInts fractional_odds with
  | some (n, d) =>
    if d = 0 then Except.error PyExc.zeroDivisionError
    else Except.ok (1 + (n : ℚ) / (d : ℚ))
  | none => Except.ok 2

/-- League-wide aggregate season statistics, as read from `league_info` with
`.get('goals', 0)`, `.get('homeTeamWins', 0)`, `.get('awayTeamWins', 0)` and
`.get('draws', 0)`; a missing key behaves like the value 0. -/
structure LeagueInfo where
  goals : Int
  homeTeamWins : Int
  awayTeamWins : Int
  draws : Int
deriving Repr, DecidableEq

/-- The denominator `homeTeamWins + awayTeamWins + draws` shared by
`calculate_prediction_factor` and `calculate_expected_goals`. -/
def decidedMatches (li : LeagueInfo) : Int :=
  li.homeTeamWins + li.awayTeamWins + li.draws

/-- `calculate_prediction_factor` (odd_calculator.py:357-384).  Python raises
`ZeroDivisionError` when a denominator is zero: `1/(odds+1)` at `odds = -1`,
both `.../(hw+aw+d)` ratios when the decided-match count is 0, and
`goals / (league_avg * 3)` when the league goal total is 0; none of these is
caught anywhere in the pipeline.  (Python evaluates the factors in source
order, but every division failure raises the same exception, so guard order
is observationally irrelevant.) -/
def calculate_prediction_factor (form : Int) (odds : ℚ) (position : Int)
    (goals : Int) (league_info : LeagueInfo) (is_home : Bool) : Except PyExc ℚ :=
  if odds + 1 = 0 then Except.error PyExc.zeroDivisionError
  else if decidedMatches league_info = 0 then Except.error PyExc.zeroDivisionError
  else if (league_info.goals : ℚ) / (decidedMatches league_info : ℚ) * 3 = 0 then
    Except.error PyExc.zeroDivisionError
  else
    let form_factor : ℚ := min ((form : ℚ) / 9) 1
    let odds_factor : ℚ := 1 / (odds + 1)
    let position_factor : ℚ := (20 - min (position : ℚ) 20) / 20
    let goals_factor : ℚ :=
      min ((goals : ℚ) / ((league_info.goals : ℚ) / (decidedMatches league_info : ℚ) * 3)) 1
    let home_advantage_factor : ℚ :=
      ((league_info.homeTeamWins : ℚ) / (decidedMatches league_info : ℚ) - 1/2) *
        (if is_home then 1 else -1)
    Except.ok (form_factor * (35/100) + odds_factor * (25/100) + position_factor * (15/100)
      + goals_factor * (15/100) + home_advantage_factor * (10/100))

/-- `calculate_expected_goals` (odd_calculator.py:387-402).  The division
defining `league_avg_goals` raises `ZeroDivisionError` when the baseline has
zero decided matches; no clamping of any kind is applied to the two results. -/
def calculate_expected_goals (home_factor away_factor : ℚ) (league_info : LeagueInfo) :
    Except PyExc (ℚ × ℚ) :=
  if decidedMatches league_info = 0 then Except.error PyExc.zeroDivisionError
  else
    let league_avg_goals : ℚ := (league_info.goals : ℚ) / (decidedMatches league_info : ℚ)
    Except.ok (league_avg_goals * (1 + home_factor - away_factor) * (11/10),
               league_avg_goals * (1 + away_factor - home_factor))

/-- Rounding to two decimal places, the model of Python `round(x, 2)`.
CPython rounds a tie half-to-even on the underlying binary float; no input
considered in this development produces a tie, so nearest-integer rounding of
the exact rational is an exact model for them. -/
def round2 (q : ℚ) : ℚ := ((round (q * 100) : Int) : ℚ) / 100

/-- The first loop of `calculate_percentage`: per outcome, unpack the
fractional value into two integers (an `int()` failure raises `ValueError`
here — unlike in `calculate_decimal_odds` nothing catches it) and compute the
implied probability `denominator / (numerator + denominator)`, raising
`ZeroDivisionError` when `numerator + denominator` is 0.  The Python dict of
outcomes is modelled as an association list (outcome names are distinct). -/
def impliedProbs : List (String × String) → Except PyExc (List (String × ℚ))
  | [] => Except.ok []
  | p :: rest =>
    match parseTwoInts p.2 with
    | none => Except.error PyExc.valueError
    | some nd =>
      if nd.1 + nd.2 = 0 then Except.error PyExc.zeroDivisionError
      else
        match impliedProbs rest with
        | Except.error e => Except.error e
        | Except.ok tail =>
          Except.ok ((p.1, (nd.2 : ℚ) / ((nd.1 : ℚ) + (nd.2 : ℚ))) :: tail)

/-- `calculate_percentage` (odd_calculator.py:155-178): implied probabilities,
normalised by their total (`ZeroDivisionError` when the total is 0), scaled to
percentages and rounded to two decimals. -/
def calculate_percentage (odds : List (String × String)) : Except PyExc (List (String × ℚ)) :=
  match impliedProbs odds with
  | Except.error e => Except.error e
  | Except.ok probabilities =>
    let total_probability : ℚ := (probabilities.map Prod.snd).sum
    if total_probability = 0 then Except.error PyExc.zeroDivisionError
    else Except.ok (probabilities.map (fun q => (q.1, round2 (q.2 / total_probability * 100))))

/-- Parsing one iteration of the `calculate_form_and_goals` loop
(odd_calculator.py:436-440,442): split the record on newlines (`lines[1]`
raises `IndexError` when there is no second line), split that line on
`" - "` (`scores[1]` raises `IndexError`), convert both scores with `int()`
(`ValueError` on failure) and record whether `lines[0]` starts with "Home". -/
def parseRecord (m : String) : Except PyExc (Bool × Int × Int) :=
  match pySplit1 '\n' m with
  | l0 :: l1 :: _ =>
    match pySplit3 ' ' '-' ' ' l1 with
    | s0 :: s1 :: _ =>
      match pyInt? s0, pyInt? s1 with
      | some home_score, some away_score =>
        Except.ok (pyStartswith ("Home") l0, home_score, away_score)
      | _, _ => Except.error PyExc.valueError
    | _ => Except.error PyExc.indexError
  | _ => Except.error PyExc.indexError

/-- The body of the `calculate_form_and_goals` loop: a record whose first
line starts with "Home" credits the team with the home score and the home
side's points, every other record credits the away score and the away side's
points. -/
def record_step (acc : Int × Int) (m : String) : Except PyExc (Int × Int) :=
  match parseRecord m with
  | Except.error e => Except.error e
  | Except.ok (side, home_score, away_score) =>
    if side then
      Except.ok (acc.1 + (if home_score > away_score then 3
                          else if home_score = away_score then 1 else 0),
                 acc.2 + home_score)
    else
      Except.ok (acc.1 + (if away_score > home_score then 3
                          else if home_score = away_score then 1 else 0),
                 acc.2 + away_score)

/-- The accumulating loop of `calculate_form_and_goals`. -/
def formGoalsAux (acc : Int × Int) : List String → Except PyExc (Int × Int)
  | [] => Except.ok acc
  | m :: rest =>
    match record_step acc m with
    | Except.error e => Except.error e
    | Except.ok acc2 => formGoalsAux acc2 rest

/-- `calculate_form_and_goals` (odd_calculator.py:423-448). -/
def calculate_form_and_goals (ms : List String) : Except PyExc (Int × Int) :=
  formGoalsAux (0, 0) ms

/-- One row of `standings['standings'][0]['rows']`: the fields the engine
reads are `row['team']['id']`, `row['team']['name']` and `row['position']`. -/
structure StandingsRow where
  team_id : String
  team_name : String
  position : Int
deriving Repr, DecidableEq

/-- One entry of the `standings['standings']` list. -/
structure StandingsGroup where
  rows : List StandingsRow
deriving Repr, DecidableEq

/-- The standings payload: the list stored under the `'standings'` key. -/
abbrev Standings := List StandingsGroup

/-- The scan of `get_team_position`'s loop over the rows: the `position`
field of the first row whose team id matches, `0` if none matches.  Ids in
the payload are never `None`, so a `None` team id matches no row. -/
def findPos (rows : List StandingsRow) (team_id : Option String) : Int :=
  match rows with
  | [] => 0
  | row :: rest => if some row.team_id = team_id then row.position else findPos rest team_id

/-- `get_team_position` (odd_calculator.py:205-220).  Indexing
`standings['standings'][0]` raises `IndexError` when that list is empty. -/
def get_team_position (standings : Standings) (team_id : Option String) : Except PyExc Int :=
  match standings with
  | [] => Except.error PyExc.indexError
  | g :: _ => Except.ok (findPos g.rows team_id)

/-- The `next((row['team']['name'] ...), None)` lookup in `get_team_data`
(odd_calculator.py:344-345); the same `[0]` indexing applies. -/
def teamNameLookup (standings : Standings) (team_id : Option String) :
    Except PyExc (Option String) :=
  match standings with
  | [] => Except.error PyExc.indexError
  | g :: _ =>
    Except.ok ((g.rows.find? (fun row => some row.team_id = team_id)).map
      (fun row => row.team_name))

/-- One choice of a betting market: `choice['name']`,
`choice['fractionalValue']` and `choice['change']`. -/
structure Choice where
  name : String
  fractionalValue : String
  change : Int
deriving Repr, DecidableEq

/-- One market of the odds payload: `market['marketName']` and
`market['choices']`. -/
structure Market where
  marketName : String
  choices : List Choice
deriving Repr, DecidableEq

/-- The match-details payload as far as `get_match_prediction_info`
(odd_calculator.py:287-306) reads it: each field is the result of a chain of
`.get(...)` calls and is `none` when any key on the chain is missing. -/
structure MatchDetails where
  tournament_id : Option String
  season_id : Option String
  home_team_id : Option String
  away_team_id : Option String
  home_team_name : Option String
  away_team_name : Option String
deriving Repr, DecidableEq

/-- The dictionary built by the surviving (second) definition of
`get_match_prediction_info`.  Note it is a non-empty dict literal, hence
always truthy, even when every value is `None`. -/
def get_match_prediction_info (match_details : MatchDetails) : MatchDetails :=
  match_details

/-- `extract_team_and_tournament_info` (odd_calculator.py:309-320). -/
def extract_team_and_tournament_info (prediction_info : MatchDetails) :
    Option String × Option String × Option String × Option String :=
  (prediction_info.home_team_id, prediction_info.away_team_id,
   prediction_info.tournament_id, prediction_info.season_id)

/-- The external collaborators (Redis cache plus HTTP API) of the engine,
abstracted as in spec section 6: match details, league season info,
standings, raw match odds and the cached last-three-matches strings, each
keyed by the ids the code passes to them. -/
structure Env where
  matchDetails : String → Option MatchDetails
  leagueInfo : Option String → Option String → Option LeagueInfo
  standingsTbl : Option String → Option String → Option Standings
  matchOdds : String → Option (List Market)
  lastMatches : Option String → List String

/-- `get_match_odds_1x2` (odd_calculator.py:85-114): the choices of the first
market named "Full time", as an association list from choice name to
`{fractional_value, change}`; `None` when the odds payload is missing or no
such market exists. -/
def get_match_odds_1x2 (env : Env) (match_id : String) :
    Option (List (String × String × Int)) :=
  match env.matchOdds match_id with
  | none => none
  | some markets =>
    match markets.find? (fun m => m.marketName = ("Full time")) with
    | none => none
    | some market =>
      some (market.choices.map (fun c => (c.name, c.fractionalValue, c.change)))

/-- The `odds_1x2.get('Home' if is_home else 'Away', {'fractional_value': '1/1'})
['fractional_value']` lookup of `get_team_data` (odd_calculator.py:340-341). -/
def lookupFractional (odds_1x2 : List (String × String × Int)) (key : String) : String :=
  match odds_1x2.find? (fun p => p.1 = key) with
  | some p => p.2.1
  | none => "1/1"

/-- The per-team record assembled by `get_team_data`
(odd_calculator.py:323-354). -/
structure TeamData where
  form : Int
  odds : ℚ
  position : Int
  goals : Int
  league_info : LeagueInfo
  is_home : Bool
  name : Option String
deriving Repr, DecidableEq

/-- `get_team_data` (odd_calculator.py:323-354).  When `get_match_odds_1x2`
returns `None`, the `.get` attribute access on `None` raises
`AttributeError`; the other steps propagate their own exceptions. -/
def get_team_data (env : Env) (team_id : Option String) (match_id : String)
    (standings : Standings) (league_info : LeagueInfo) (is_home : Bool) :
    Except PyExc TeamData :=
  match calculate_form_and_goals (env.lastMatches team_id) with
  | Except.error e => Except.error e
  | Except.ok fg =>
    match get_match_odds_1x2 env match_id with
    | none => Except.error PyExc.attributeError
    | some odds_1x2 =>
      match calculate_decimal_odds
          (lookupFractional odds_1x2 (if is_home then ("Home") else ("Away"))) with
      | Except.error e => Except.error e
      | Except.ok odds =>
        match get_team_position standings team_id with
        | Except.error e => Except.error e
        | Except.ok position =>
          match teamNameLookup standings team_id with
          | Except.error e => Except.error e
          | Except.ok name =>
            Except.ok { form := fg.1, odds := odds, position := position, goals := fg.2,
                        league_info := league_info, is_home := is_home, name := name }

/-- The stage-identifying failure string for an unresolvable match id
(odd_calculator.py:253). -/
def msg_no_details (match_id : String) : String :=
  "Unable to fetch match details for match ID: " ++ match_id ++
    ". Check if the match ID is correct."

/-- The failure string for incomplete prediction info (odd_calculator.py:257);
its branch condition `not prediction_info` is always false (non-empty dict). -/
def msg_no_info (match_id : String) : String :=
  "Unable to extract prediction info for match ID: " ++ match_id ++
    ". Match details might be incomplete."

/-- The failure string for missing league info (odd_calculator.py:263). -/
def msg_no_league : String := "Unable to fetch league info."

/-- The failure string for missing standings (odd_calculator.py:267). -/
def msg_no_standings : String := "Unable to fetch standings."

/-- What `predict_match` produces when it returns normally: either one of the
stage failure strings, or a full prediction.  The prediction report is
truncated at the hand-off to `simulate_multiple_matches`, the point where the
code draws `np.random.poisson` samples: the model records the deterministic
data the simulator and `generate_prediction_message` are given (the two team
names and the two expected-goals rates). -/
inductive PredictOutcome where
  | failure (msg : String)
  | report (home_name away_name : Option String) (home_xg away_xg : ℚ)
deriving Repr, DecidableEq

/-- `predict_match` (odd_calculator.py:241-284), the orchestrator. -/
def predict_match (env : Env) (match_id : String) : Except PyExc PredictOutcome :=
  match env.matchDetails match_id with
  | none => Except.ok (PredictOutcome.failure (msg_no_details match_id))
  | some match_details =>
    let prediction_info := get_match_prediction_info match_details
    let ids := extract_team_and_tournament_info prediction_info
    let home_team_id := ids.1
    let away_team_id := ids.2.1
    let tournament_id := ids.2.2.1
    let season_id := ids.2.2.2
    match env.leagueInfo tournament_id season_id with
    | none => Except.ok (PredictOutcome.failure msg_no_league)
    | some league_info =>
      match env.standingsTbl tournament_id season_id with
      | none => Except.ok (PredictOutcome.failure msg_no_standings)
      | some standings =>
        match get_team_data env home_team_id match_id standings league_info true with
        | Except.error e => Except.error e
        | Except.ok home_team_data =>
          match get_team_data env away_team_id match_id standings league_info false with
          | Except.error e => Except.error e
          | Except.ok away_team_data =>
            match calculate_prediction_factor home_team_data.form home_team_data.odds
                home_team_data.position home_team_data.goals home_team_data.league_info
                home_team_data.is_home with
            | Except.error e => Except.error e
            | Except.ok home_factor =>
              match calculate_prediction_factor away_team_data.form away_team_data.odds
                  away_team_data.position away_team_data.goals away_team_data.league_info
                  away_team_data.is_home with
              | Except.error e => Except.error e
              | Except.ok away_factor =>
                match calculate_expected_goals home_factor away_factor league_info with
                | Except.error e => Except.error e
                | Except.ok xg =>
                  Except.ok (PredictOutcome.report home_team_data.name
                    away_team_data.name xg.1 xg.2)

example : parseTwoInts ("5/2") = some (5, 2) := by decide
example : parseTwoInts ("1/0") = some (1, 0) := by decide
example : parseTwoInts ("abc") = none := by decide
example : parseTwoInts ("1/2/3") = none := by decide
example : calculate_decimal_odds ("1/0") = Except.error PyExc.zeroDivisionError := by
  have h : parseTwoInts ("1/0") = some (1, 0) := by decide
  simp [calculate_decimal_odds, h]
example : calculate_decimal_odds ("5/2") = Except.ok (7/2) := by
  have h : parseTwoInts ("5/2") = some (5, 2) := by decide
  simp [calculate_decimal_odds, h]
  norm_num

example : parseRecord ("Home: X\n2 - 1") = Except.ok (true, 2, 1) := by decide
example : parseRecord ("Away: X\n0 - 3") = Except.ok (false, 0, 3) := by decide
example : parseRecord ("Tournament: Z\n2 - 0") = Except.ok (false, 2, 0) := by decide
example : parseRecord ("garbage") = Except.error PyExc.indexError := by decide
example : calculate_form_and_goals (["Home: X\n2 - 1", "Away: Y\n1 - 3"]) = Except.ok (6, 5) := by decide

/-- A league baseline with a healthy number of decided matches, used as a
concrete fixture: 30 goals over 5 home wins, 3 away wins and 2 draws. -/
def liNormal : LeagueInfo :=
  { goals := 30, homeTeamWins := 5, awayTeamWins := 3, draws := 2 }

/-- C1 counterexample: on the fractional string "1/0" (two integers with a
zero denominator) `calculate_decimal_odds` raises `ZeroDivisionError` instead
of returning the even-odds default 2.0 that the claim promises. -/
theorem calculate_decimal_odds_div_zero_cex :
    calculate_decimal_odds ("1/0") = Except.error PyExc.zeroDivisionError ∧
    calculate_decimal_odds ("1/0") ≠ Except.ok 2 := by
  have h : parseTwoInts ("1/0") = some (1, 0) := by decide
  constructor
  · simp [calculate_decimal_odds, h]
  · simp [calculate_decimal_odds, h]

/-- C1 (amended): for a string parsing as two integers N, D with N, D > 0 the
function returns exactly `1 + N/D`; for a string that does not split into two
integers it returns 2.0; but when D = 0 it raises `ZeroDivisionError` (the
`except ValueError` clause does not catch it) rather than returning 2.0. -/
theorem calculate_decimal_odds_spec :
    (∀ (s : String) (n d : Int), parseTwoInts s = some (n, d) → 0 < n → 0 < d →
        calculate_decimal_odds s = Except.ok (1 + (n : ℚ) / (d : ℚ))) ∧
    (∀ s : String, parseTwoInts s = none → calculate_decimal_odds s = Except.ok 2) ∧
    (∀ (s : String) (n : Int), parseTwoInts s = some (n, 0) →
        calculate_decimal_odds s = Except.error PyExc.zeroDivisionError) := by
  refine ⟨?_, ?_, ?_⟩
  · intro s n d hp hn hd
    have hd0 : d ≠ 0 := by omega
    simp [calculate_decimal_odds, hp, hd0]
  · intro s hp
    simp [calculate_decimal_odds, hp]
  · intro s n hp
    simp [calculate_decimal_odds, hp]

/-- C1 witness: the happy path evaluated at "5/2". -/
theorem calculate_decimal_odds_spec_witness :
    calculate_decimal_odds ("5/2") = Except.ok (1 + (5 : ℚ) / (2 : ℚ)) :=
  calculate_decimal_odds_spec.1 ("5/2") 5 2 (by decide) (by decide) (by decide)

/-- C3 counterexample: with the healthy baseline `liNormal` (league average
3 goals per match) and strength factors 0 and 2, the home expected-goals
value is -33/10 < 0: nothing clamps the outputs to be non-negative. -/
theorem calculate_expected_goals_negative_cex :
    calculate_expected_goals 0 2 liNormal = Except.ok (-33/10, 9) ∧
    ¬ (0 : ℚ) ≤ -33/10 := by
  constructor
  · rw [calculate_expected_goals]
    norm_num [liNormal, decidedMatches]
  · norm_num

/-- C3 (amended): `calculate_expected_goals` applies no clamp at all — for
any baseline with decided matches and a positive league goal average,
whenever the away strength exceeds the home strength by more than 1 the home
side's expected-goals value is strictly negative (and symmetrically for the
away side), and that negative rate is what would be handed to the simulator. -/
theorem calculate_expected_goals_unclamped (h a : ℚ) (li : LeagueInfo)
    (hT : decidedMatches li ≠ 0)
    (havg : 0 < (li.goals : ℚ) / (decidedMatches li : ℚ)) :
    (1 < a - h →
      calculate_expected_goals h a li =
        Except.ok ((li.goals : ℚ) / (decidedMatches li : ℚ) * (1 + h - a) * (11/10),
                   (li.goals : ℚ) / (decidedMatches li : ℚ) * (1 + a - h)) ∧
      (li.goals : ℚ) / (decidedMatches li : ℚ) * (1 + h - a) * (11/10) < 0) ∧
    (1 < h - a →
      calculate_expected_goals h a li =
        Except.ok ((li.goals : ℚ) / (decidedMatches li : ℚ) * (1 + h - a) * (11/10),
                   (li.goals : ℚ) / (decidedMatches li : ℚ) * (1 + a - h)) ∧
      (li.goals : ℚ) / (decidedMatches li : ℚ) * (1 + a - h) < 0) := by
  have heq : calculate_expected_goals h a li =
      Except.ok ((li.goals : ℚ) / (decidedMatches li : ℚ) * (1 + h - a) * (11/10),
                 (li.goals : ℚ) / (decidedMatches li : ℚ) * (1 + a - h)) := by
    simp [calculate_expected_goals, hT]
  constructor
  · intro hext
    refine ⟨heq, ?_⟩
    have h1 : 1 + h - a < 0 := by linarith
    have h2 := mul_neg_of_pos_of_neg havg h1
    nlinarith
  · intro hext
    refine ⟨heq, ?_⟩
    have h1 : 1 + a - h < 0 := by linarith
    exact mul_neg_of_pos_of_neg havg h1

/-- C3 witness: the amended statement evaluated at strengths 0 and 3 over the
fixture baseline. -/
theorem calculate_expected_goals_unclamped_witness :
    calculate_expected_goals 0 3 liNormal =
      Except.ok ((liNormal.goals : ℚ) / (decidedMatches liNormal : ℚ) * (1 + 0 - 3) * (11/10),
                 (liNormal.goals : ℚ) / (decidedMatches liNormal : ℚ) * (1 + 3 - 0)) ∧
    (liNormal.goals : ℚ) / (decidedMatches liNormal : ℚ) * (1 + 0 - 3) * (11/10) < 0 :=
  (calculate_expected_goals_unclamped 0 3 liNormal (by decide)
    (by norm_num [liNormal, decidedMatches])).1 (by norm_num)

/-- C10: the swap symmetry of `calculate_expected_goals` — for any strengths
h, a and any baseline with a nonzero number of decided matches, the home
expected goals at (h, a) equal 1.1 times the away expected goals at (a, h):
the two sides' formulas agree up to the fixed 1.1 home-scoring multiplier
under exchange of the strength arguments. -/
theorem calculate_expected_goals_swap (h a : ℚ) (li : LeagueInfo)
    (hT : decidedMatches li ≠ 0) :
    ∃ x y u v : ℚ, calculate_expected_goals h a li = Except.ok (x, y) ∧
      calculate_expected_goals a h li = Except.ok (u, v) ∧ x = (11/10) * v := by
  refine ⟨(li.goals : ℚ) / (decidedMatches li : ℚ) * (1 + h - a) * (11/10),
          (li.goals : ℚ) / (decidedMatches li : ℚ) * (1 + a - h),
          (li.goals : ℚ) / (decidedMatches li : ℚ) * (1 + a - h) * (11/10),
          (li.goals : ℚ) / (decidedMatches li : ℚ) * (1 + h - a), ?_, ?_, by ring⟩
  · simp [calculate_expected_goals, hT]
  · simp [calculate_expected_goals, hT]

/-- C10 witness: the swap symmetry evaluated at strengths 2/5 and 3/5 over
the fixture baseline. -/
theorem calculate_expected_goals_swap_witness :
    ∃ x y u v : ℚ, calculate_expected_goals (2/5) (3/5) liNormal = Except.ok (x, y) ∧
      calculate_expected_goals (3/5) (2/5) liNormal = Except.ok (u, v) ∧
      x = (11/10) * v :=
  calculate_expected_goals_swap (2/5) (3/5) liNormal (by decide)

/-- C4, the formula the claim words: the goals term divides the team's goals
by `expected_goals_per_team_per_match * 3` with
`expected_goals_per_team_per_match = avg_goals_per_match / 3`, which is just
the league's average goals per match. -/
def strength_claimed (form : Int) (odds : ℚ) (position : Int) (goals : Int)
    (li : LeagueInfo) (is_home : Bool) : ℚ :=
  let avg : ℚ := (li.goals : ℚ) / (decidedMatches li : ℚ)
  let e : ℚ := avg / 3
  min ((form : ℚ) / 9) 1 * (35/100) + (1 / (odds + 1)) * (25/100)
    + ((20 - min (position : ℚ) 20) / 20) * (15/100)
    + min ((goals : ℚ) / (e * 3)) 1 * (15/100)
    + (((li.homeTeamWins : ℚ) / (decidedMatches li : ℚ) - 1/2) *
        (if is_home then 1 else -1)) * (10/100)

/-- C4, the formula amended to what the code computes: identical to
`strength_claimed` except that the goals term divides by
`avg_goals_per_match * 3`, three times the claim's denominator. -/
def strength_amended (form : Int) (odds : ℚ) (position : Int) (goals : Int)
    (li : LeagueInfo) (is_home : Bool) : ℚ :=
  let avg : ℚ := (li.goals : ℚ) / (decidedMatches li : ℚ)
  min ((form : ℚ) / 9) 1 * (35/100) + (1 / (odds + 1)) * (25/100)
    + ((20 - min (position : ℚ) 20) / 20) * (15/100)
    + min ((goals : ℚ) / (avg * 3)) 1 * (15/100)
    + (((li.homeTeamWins : ℚ) / (decidedMatches li : ℚ) - 1/2) *
        (if is_home then 1 else -1)) * (10/100)

/-- C4 counterexample: at form 9, decimal odds 1, rank 10, 5 goals and the
fixture baseline (average 3 goals per match), the code returns 19/30 while
the claim's formula gives 7/10: the goals factor is min(5/9, 1), not
min(5/3, 1). -/
theorem calculate_prediction_factor_cex :
    calculate_prediction_factor 9 1 10 5 liNormal true = Except.ok (19/30) ∧
    strength_claimed 9 1 10 5 liNormal true = 7/10 ∧ ¬ ((19/30 : ℚ) = 7/10) := by
  refine ⟨?_, ?_, by norm_num⟩
  · rw [calculate_prediction_factor]
    norm_num [liNormal, decidedMatches, min_def]
  · rw [strength_claimed]
    norm_num [liNormal, decidedMatches, min_def]

/-- C4 (amended): with a non-degenerate baseline whose goal total is nonzero
and decimal odds other than -1 (the values every actual quote produces),
`calculate_prediction_factor` returns exactly the weighted sum
0.35·min(form/9,1) + 0.25·(1/(odds+1)) + 0.15·((20-min(rank,20))/20)
+ 0.15·min(goals/(avg_goals_per_match·3),1) + 0.10·home_offset, the
home-advantage offset negated for the away side and no clamp on the total;
the goals denominator is `avg_goals_per_match * 3`, not the claim's
`(avg_goals_per_match/3) * 3`. -/
theorem calculate_prediction_factor_formula (form : Int) (odds : ℚ) (position : Int)
    (goals : Int) (li : LeagueInfo) (is_home : Bool)
    (hT : decidedMatches li ≠ 0) (hg : li.goals ≠ 0) (ho : odds + 1 ≠ 0) :
    calculate_prediction_factor form odds position goals li is_home =
      Except.ok (strength_amended form odds position goals li is_home) := by
  have hTq : ((decidedMatches li : Int) : ℚ) ≠ 0 := Int.cast_ne_zero.mpr hT
  have hgq : ((li.goals : Int) : ℚ) ≠ 0 := Int.cast_ne_zero.mpr hg
  have h3 : ¬ ((li.goals : ℚ) / (decidedMatches li : ℚ) * 3 = 0) :=
    mul_ne_zero (div_ne_zero hgq hTq) (by norm_num)
  rw [calculate_prediction_factor, if_neg ho, if_neg hT, if_neg h3]
  rfl

/-- C4 witness: the amended formula evaluated at the counterexample's input. -/
theorem calculate_prediction_factor_formula_witness :
    calculate_prediction_factor 9 1 10 5 liNormal true =
      Except.ok (strength_amended 9 1 10 5 liNormal true) :=
  calculate_prediction_factor_formula 9 1 10 5 liNormal true
    (by decide) (by decide) (by norm_num)


/-- C6 counterexample: a record whose venue tag cannot be determined (its
first line is a tournament header, as `format_last_three_matches` actually
produces) is counted as an AWAY appearance: for "Tournament: X\n2 - 0" the
code credits 0 points and 0 goals (the away side lost 0-2), not the home
side's 3 points and 2 goals that the claim requires. -/
theorem form_goals_untagged_cex :
    calculate_form_and_goals (["Tournament: X\n2 - 0"]) = Except.ok (0, 0) ∧
    ¬ calculate_form_and_goals (["Tournament: X\n2 - 0"]) = Except.ok (3, 2) := by
  constructor <;> decide

/-- C6 (amended): the side-detection rule is the reverse of the claim's:
a record is credited to the home side only when its first line starts with
"Home"; every record not so tagged — away-tagged or venue-undeterminable —
is credited with the away side's score and the away side's points. -/
theorem form_goals_untagged_counts_away (m : String) (hs aScore : Int)
    (hparse : parseRecord m = Except.ok (false, hs, aScore)) :
    calculate_form_and_goals ([m]) =
      Except.ok ((if aScore > hs then 3 else if hs = aScore then 1 else 0), aScore) := by
  simp [calculate_form_and_goals, formGoalsAux, record_step, hparse]

/-- C6 witness: an away-counted record with an undeterminable venue tag. -/
theorem form_goals_untagged_counts_away_witness :
    calculate_form_and_goals (["Status: finished\n4 - 1"]) =
      Except.ok ((if (1 : Int) > 4 then 3 else if (4 : Int) = 1 then 1 else 0), 1) :=
  form_goals_untagged_counts_away ("Status: finished\n4 - 1") 4 1 (by decide)

/-- Points the team earns from one parsed result (3 win / 1 draw / 0 loss),
given the side it played and the record's home and away scores. -/
def resultPoints (side : Bool) (home_score away_score : Int) : Int :=
  if side then
    (if home_score > away_score then 3 else if home_score = away_score then 1 else 0)
  else
    (if away_score > home_score then 3 else if home_score = away_score then 1 else 0)

/-- The goals the team itself scored in one parsed result. -/
def ownGoals (side : Bool) (home_score away_score : Int) : Int :=
  if side then home_score else away_score

/-- One loop iteration adds exactly the result's points and own goals. -/
theorem record_step_ok (acc : Int × Int) (m : String) (side : Bool) (hs aScore : Int)
    (h : parseRecord m = Except.ok (side, hs, aScore)) :
    record_step acc m =
      Except.ok (acc.1 + resultPoints side hs aScore, acc.2 + ownGoals side hs aScore) := by
  cases side <;> simp [record_step, h, resultPoints, ownGoals]

/-- The loop of `calculate_form_and_goals` accumulates points and own goals
over any list of parsable records. -/
theorem formGoalsAux_spec (records : List String) (info : List (Bool × Int × Int))
    (hrel : List.Forall₂ (fun m p => parseRecord m = Except.ok p) records info) :
    ∀ acc : Int × Int, formGoalsAux acc records =
      Except.ok (acc.1 + (info.map (fun p => resultPoints p.1 p.2.1 p.2.2)).sum,
                 acc.2 + (info.map (fun p => ownGoals p.1 p.2.1 p.2.2)).sum) := by
  induction hrel with
  | nil => intro acc; simp [formGoalsAux]
  | @cons m p records2 info2 hpar htail ih =>
    intro acc
    obtain ⟨side, hs, aScore⟩ := p
    rw [formGoalsAux, record_step_ok acc m side hs aScore hpar]
    simp only [ih]
    simp [add_assoc]

theorem resultPoints_le_three (side : Bool) (hs aScore : Int) :
    resultPoints side hs aScore ≤ 3 := by
  unfold resultPoints
  cases side <;> simp <;> split <;> omega

theorem sum_le_three_mul (l : List Int) (h : ∀ x ∈ l, x ≤ 3) :
    l.sum ≤ 3 * (l.length : Int) := by
  induction l with
  | nil => simp
  | cons x t ih =>
    simp only [List.sum_cons, List.length_cons]
    have hx := h x (by simp)
    have ht := ih (fun y hy => h y (by simp [hy]))
    push_cast
    push_cast at ht
    omega

/-- C8: over up to three result records, each tagged with the side the team
played, `calculate_form_and_goals` returns form equal to the sum of 3 points
per win, 1 per draw and 0 per loss — hence never more than 9 — and goals
equal to the sum of the goals the team itself scored; with fewer than three
records it sums exactly the records supplied. -/
theorem calculate_form_and_goals_correct (records : List String)
    (info : List (Bool × Int × Int))
    (hrel : List.Forall₂ (fun m p => parseRecord m = Except.ok p) records info)
    (hlen : records.length ≤ 3) :
    calculate_form_and_goals records =
      Except.ok ((info.map (fun p => resultPoints p.1 p.2.1 p.2.2)).sum,
                 (info.map (fun p => ownGoals p.1 p.2.1 p.2.2)).sum) ∧
    (info.map (fun p => resultPoints p.1 p.2.1 p.2.2)).sum ≤ 9 := by
  constructor
  · have := formGoalsAux_spec records info hrel (0, 0)
    simpa [calculate_form_and_goals] using this
  · have hlen2 : info.length ≤ 3 := by
      have := hrel.length_eq
      omega
    have hpts : ∀ x ∈ info.map (fun p => resultPoints p.1 p.2.1 p.2.2), x ≤ 3 := by
      intro x hx
      obtain ⟨p, _, rfl⟩ := List.mem_map.mp hx
      exact resultPoints_le_three p.1 p.2.1 p.2.2
    have hsum := sum_le_three_mul _ hpts
    simp only [List.length_map] at hsum
    have : ((info.length : Int)) ≤ 3 := by exact_mod_cast hlen2
    omega

/-- C8 witness: a win at home, a win away and a draw away — form 7, goals 7. -/
theorem calculate_form_and_goals_correct_witness :
    calculate_form_and_goals (["Home: A\n2 - 1", "Away: B\n1 - 3", "Away: C\n2 - 2"]) =
      Except.ok
        ((([(true, 2, 1), (false, 1, 3), (false, 2, 2)] : List (Bool × Int × Int)).map
            (fun p => resultPoints p.1 p.2.1 p.2.2)).sum,
         (([(true, 2, 1), (false, 1, 3), (false, 2, 2)] : List (Bool × Int × Int)).map
            (fun p => ownGoals p.1 p.2.1 p.2.2)).sum) ∧
    ((([(true, 2, 1), (false, 1, 3), (false, 2, 2)] : List (Bool × Int × Int)).map
        (fun p => resultPoints p.1 p.2.1 p.2.2)).sum) ≤ 9 :=
  calculate_form_and_goals_correct
    (["Home: A\n2 - 1", "Away: B\n1 - 3", "Away: C\n2 - 2"])
    ([(true, 2, 1), (false, 1, 3), (false, 2, 2)])
    (List.Forall₂.cons (by decide)
      (List.Forall₂.cons (by decide)
        (List.Forall₂.cons (by decide) List.Forall₂.nil)))
    (by decide)

/-- C9 helper: the loop returns 0 when no row carries the team id. -/
theorem findPos_absent (rows : List StandingsRow) (tid : Option String)
    (h : ∀ row ∈ rows, ¬ some row.team_id = tid) : findPos rows tid = 0 := by
  induction rows with
  | nil => rfl
  | cons r t ih =>
    rw [findPos, if_neg (h r (by simp))]
    exact ih (fun row hr => h row (by simp [hr]))

/-- C9 helper: the loop returns the `position` field of the first matching
row. -/
theorem findPos_first (rows : List StandingsRow) (tid : String) :
    ∀ (i : Nat) (h : i < rows.length),
      (∀ row ∈ rows.take i, row.team_id ≠ tid) →
      (rows.get ⟨i, h⟩).team_id = tid →
      findPos rows (some tid) = (rows.get ⟨i, h⟩).position := by
  induction rows with
  | nil => intro i h; simp at h
  | cons r t ih =>
    intro i h hbefore hhit
    cases i with
    | zero =>
      simp only [List.get] at hhit ⊢
      rw [findPos, if_pos (by simp [hhit])]
    | succ j =>
      have hr : r.team_id ≠ tid := hbefore r (by simp [List.take_succ_cons])
      rw [findPos, if_neg (by simp [hr])]
      simp only [List.get] at hhit ⊢
      exact ih j (Nat.lt_of_succ_lt_succ h)
        (fun row hrow => hbefore row (by simp [List.take_succ_cons, hrow])) hhit

/-- C9 vocabulary: the standings rows store the canonical 1-indexed rank —
row i (0-based) has `position = i + 1` — as the spec's StandingsTable data
model prescribes. -/
def PositionsCanonical (rows : List StandingsRow) : Prop :=
  ∀ (i : Nat) (h : i < rows.length), (rows.get ⟨i, h⟩).position = (i : Int) + 1

/-- C9: for a standings payload with canonical 1-indexed positions,
`get_team_position` returns the team's 1-indexed position — i + 1 for the
first matching row at 0-based index i — when a row with the team id is
present, and returns 0 when no row matches. -/
theorem get_team_position_spec (g : StandingsGroup) (rest : List StandingsGroup)
    (tid : String) (hcanon : PositionsCanonical g.rows) :
    (∀ (i : Nat) (h : i < g.rows.length),
      (∀ row ∈ g.rows.take i, row.team_id ≠ tid) →
      (g.rows.get ⟨i, h⟩).team_id = tid →
      get_team_position (g :: rest) (some tid) = Except.ok ((i : Int) + 1)) ∧
    ((∀ row ∈ g.rows, row.team_id ≠ tid) →
      get_team_position (g :: rest) (some tid) = Except.ok 0) := by
  constructor
  · intro i h hbefore hhit
    have heq := findPos_first g.rows tid i h hbefore hhit
    rw [get_team_position, heq, hcanon i h]
  · intro habs
    have heq := findPos_absent g.rows (some tid) (fun row hr => by simp [habs row hr])
    rw [get_team_position, heq]

/-- C9 fixture: three rows with canonical positions 1, 2, 3. -/
def gFixture : StandingsGroup :=
  { rows := [{ team_id := "h1", team_name := "Alpha", position := 1 },
             { team_id := "a1", team_name := "Beta", position := 2 },
             { team_id := "c1", team_name := "Gamma", position := 3 }] }

/-- C9 witness: three rows, the team in row 2 (0-based index 1) yields rank
2, and an absent id yields 0. -/
theorem get_team_position_spec_witness :
    get_team_position ([gFixture]) (some "a1") = Except.ok ((1 : Int) + 1) ∧
    get_team_position ([gFixture]) (some "zz") = Except.ok 0 := by
  constructor
  · exact (get_team_position_spec gFixture [] "a1"
      (by intro i h; simp [gFixture] at h; interval_cases i <;> rfl)).1
      1 (by decide) (by decide) (by decide)
  · exact (get_team_position_spec gFixture [] "zz"
      (by intro i h; simp [gFixture] at h; interval_cases i <;> rfl)).2
      (by decide)

/-- Rounding to two decimals moves a rational by at most 1/200. -/
theorem round2_close (q : ℚ) : |round2 q - q| ≤ 1/200 := by
  have h := abs_sub_round (q * 100)
  have heq : round2 q - q = -((q * 100 - ((round (q * 100) : Int) : ℚ)) / 100) := by
    rw [round2]; ring
  rw [heq, abs_neg, abs_div, abs_of_pos (show (0:ℚ) < 100 by norm_num)]
  linarith

/-- Rounding each list element to two decimals moves the sum by at most
1/200 per element. -/
theorem sum_round2_close (xs : List ℚ) :
    |(xs.map round2).sum - xs.sum| ≤ (xs.length : ℚ) / 200 := by
  induction xs with
  | nil => simp
  | cons x t ih =>
    simp only [List.map_cons, List.sum_cons, List.length_cons]
    have h1 := round2_close x
    have h2 : round2 x + (t.map round2).sum - (x + t.sum)
        = (round2 x - x) + ((t.map round2).sum - t.sum) := by ring
    rw [h2]
    calc |(round2 x - x) + ((t.map round2).sum - t.sum)|
        ≤ |round2 x - x| + |(t.map round2).sum - t.sum| := abs_add _ _
      _ ≤ 1/200 + (t.length : ℚ)/200 := add_le_add h1 ih
      _ = ((t.length + 1 : Nat) : ℚ)/200 := by push_cast; ring

/-- The implied-probability loop succeeds on well-formed quotes and yields
one positive probability per outcome. -/
theorem impliedProbs_ok (odds : List (String × String))
    (hwf : ∀ p ∈ odds, ∃ n d : Int, parseTwoInts p.2 = some (n, d) ∧ 0 ≤ n ∧ 1 ≤ d) :
    ∃ probs : List (String × ℚ), impliedProbs odds = Except.ok probs ∧
      probs.length = odds.length ∧ ∀ q ∈ probs, 0 < q.2 := by
  induction odds with
  | nil => exact ⟨[], rfl, rfl, by simp⟩
  | cons p rest ih =>
    obtain ⟨n, d, hp, hn, hd⟩ := hwf p (by simp)
    obtain ⟨tl, htl, hlen, hpos⟩ := ih (fun q hq => hwf q (by simp [hq]))
    refine ⟨(p.1, (d : ℚ) / ((n : ℚ) + (d : ℚ))) :: tl, ?_, by simp [hlen], ?_⟩
    · simp only [impliedProbs, hp]
      rw [if_neg (by omega : ¬ (n + d = 0)), htl]
    · intro q hq
      rcases List.mem_cons.mp hq with h | h
      · subst h
        have hd0 : (0:ℚ) < (d : ℚ) := by exact_mod_cast hd
        have hnd : (0:ℚ) < (n : ℚ) + (d : ℚ) := by
          have h2 : (0 : Int) < n + d := by omega
          exact_mod_cast h2
        exact div_pos hd0 hnd
      · exact hpos q h

/-- Summing `q.2 / t * c` over a list factors through the sum of the `q.2`. -/
theorem sum_map_div_mul (ps : List (String × ℚ)) (t c : ℚ) :
    (ps.map (fun q => q.2 / t * c)).sum = (ps.map Prod.snd).sum / t * c := by
  induction ps with
  | nil => simp
  | cons p r ih =>
    simp only [List.map_cons, List.sum_cons, ih]
    ring

/-- C7 counterexample: three identical quotes "2/1" each yield the exact
percentage 100/3, which the 2-decimal rounding turns into 33.33; the
returned values sum to 99.99, off from 100 by 0.01 — far beyond the claimed
1e-6 tolerance. -/
theorem calculate_percentage_tolerance_cex :
    calculate_percentage ([("Home", "2/1"), ("Draw", "2/1"), ("Away", "2/1")]) =
      Except.ok ([("Home", 3333/100), ("Draw", 3333/100), ("Away", 3333/100)]) ∧
    ¬ |((3333 : ℚ)/100 + 3333/100 + 3333/100 + 0) - 100| ≤ 1/1000000 := by
  have hp : parseTwoInts ("2/1") = some (2, 1) := by decide
  constructor
  · simp only [calculate_percentage, impliedProbs, hp]
    norm_num [round2, round_eq]
  · rw [show ((3333 : ℚ)/100 + 3333/100 + 3333/100 + 0) - 100 = -(1/100) by norm_num,
        abs_neg, abs_of_pos (show (0:ℚ) < 1/100 by norm_num)]
    norm_num

/-- C7 (amended): for a non-empty odds map whose entries parse as fractions
N/D with N ≥ 0 and D ≥ 1, `calculate_percentage` succeeds and the returned
(2-decimal-rounded) percentages sum to 100 within 1/200 per outcome (0.015
for a three-outcome map); the 1e-6 tolerance of the claim holds only before
the rounding. -/
theorem calculate_percentage_sum (odds : List (String × String)) (hne : odds ≠ [])
    (hwf : ∀ p ∈ odds, ∃ n d : Int, parseTwoInts p.2 = some (n, d) ∧ 0 ≤ n ∧ 1 ≤ d) :
    ∃ l : List (String × ℚ), calculate_percentage odds = Except.ok l ∧
      |(l.map Prod.snd).sum - 100| ≤ (odds.length : ℚ) / 200 := by
  obtain ⟨probs, hprobs, hlen, hpos⟩ := impliedProbs_ok odds hwf
  have hpne : probs ≠ [] := by
    intro h
    subst h
    simp at hlen
    exact hne (List.length_eq_zero.mp hlen.symm)
  have htot : 0 < (probs.map Prod.snd).sum := by
    apply List.sum_pos
    · intro x hx
      obtain ⟨q, hq, rfl⟩ := List.mem_map.mp hx
      exact hpos q hq
    · simpa using hpne
  have htne : (probs.map Prod.snd).sum ≠ 0 := ne_of_gt htot
  refine ⟨probs.map (fun q => (q.1, round2 (q.2 / (probs.map Prod.snd).sum * 100))), ?_, ?_⟩
  · simp only [calculate_percentage, hprobs]
    rw [if_neg htne]
  · have hmm : (probs.map
        (fun q => (q.1, round2 (q.2 / (probs.map Prod.snd).sum * 100)))).map Prod.snd
        = (probs.map (fun q => q.2 / (probs.map Prod.snd).sum * 100)).map round2 := by
      simp [List.map_map, Function.comp]
    rw [hmm]
    have hsum100 : (probs.map (fun q => q.2 / (probs.map Prod.snd).sum * 100)).sum = 100 := by
      rw [sum_map_div_mul, div_self htne]
      norm_num
    have hclose := sum_round2_close (probs.map (fun q => q.2 / (probs.map Prod.snd).sum * 100))
    rw [hsum100] at hclose
    simp only [List.length_map] at hclose
    rw [hlen] at hclose
    exact hclose

/-- C7 witness: the amended bound evaluated on a three-outcome quote map. -/
theorem calculate_percentage_sum_witness :
    ∃ l : List (String × ℚ),
      calculate_percentage ([("Home", "1/2"), ("Draw", "5/2"), ("Away", "4/1")]) =
        Except.ok l ∧
      |(l.map Prod.snd).sum - 100| ≤
        ((([("Home", "1/2"), ("Draw", "5/2"), ("Away", "4/1")] :
            List (String × String)).length : ℚ)) / 200 :=
  calculate_percentage_sum ([("Home", "1/2"), ("Draw", "5/2"), ("Away", "4/1")])
    (by decide)
    (by
      intro p hp
      fin_cases hp
      · exact ⟨1, 2, by decide, by decide, by decide⟩
      · exact ⟨5, 2, by decide, by decide, by decide⟩
      · exact ⟨4, 1, by decide, by decide, by decide⟩)

/-- Whenever the baseline has zero decided matches, the factor computation
raises `ZeroDivisionError`, whatever the other inputs. -/
theorem factor_degenerate (form : Int) (odds : ℚ) (position goals : Int)
    (li : LeagueInfo) (is_home : Bool) (hdeg : decidedMatches li = 0) :
    calculate_prediction_factor form odds position goals li is_home =
      Except.error PyExc.zeroDivisionError := by
  unfold calculate_prediction_factor
  by_cases h : odds + 1 = 0 <;> simp [h, hdeg]

/-- `get_team_data` on a non-empty standings payload, with a present odds
market and parsable inputs, assembles the team record. -/
theorem get_team_data_ok (env : Env) (team_id : Option String) (match_id : String)
    (g : StandingsGroup) (rest : List StandingsGroup) (li : LeagueInfo) (is_home : Bool)
    (odds_1x2 : List (String × String × Int)) (fg : Int × Int) (odds : ℚ)
    (hfg : calculate_form_and_goals (env.lastMatches team_id) = Except.ok fg)
    (hodds : get_match_odds_1x2 env match_id = some odds_1x2)
    (ho : calculate_decimal_odds
        (lookupFractional odds_1x2 (if is_home then ("Home") else ("Away"))) =
        Except.ok odds) :
    get_team_data env team_id match_id (g :: rest) li is_home =
      Except.ok { form := fg.1, odds := odds, position := findPos g.rows team_id,
                  goals := fg.2, league_info := li, is_home := is_home,
                  name := (g.rows.find? (fun row => some row.team_id = team_id)).map
                    (fun row => row.team_name) } := by
  unfold get_team_data
  simp only [hfg, hodds, ho]
  simp [get_team_position, teamNameLookup]

/-- C2 (amended): when every prerequisite of the pipeline is present — match
details resolve, league info and a non-empty standings payload are found, the
odds market exists and all per-team inputs parse — but the season baseline
has zero decided matches, `predict_match` does not return a failure message:
the `ZeroDivisionError` raised inside `calculate_prediction_factor`
propagates out of the orchestrator uncaught, i.e. the degenerate baseline
surfaces as a crash. -/
theorem predict_match_degenerate (env : Env) (match_id : String) (md : MatchDetails)
    (li : LeagueInfo) (g : StandingsGroup) (rest : List StandingsGroup)
    (odds_1x2 : List (String × String × Int)) (fgH fgA : Int × Int) (oddsH oddsA : ℚ)
    (hmd : env.matchDetails match_id = some md)
    (hli : env.leagueInfo md.tournament_id md.season_id = some li)
    (hdeg : decidedMatches li = 0)
    (hst : env.standingsTbl md.tournament_id md.season_id = some (g :: rest))
    (hodds : get_match_odds_1x2 env match_id = some odds_1x2)
    (hfgH : calculate_form_and_goals (env.lastMatches md.home_team_id) = Except.ok fgH)
    (hfgA : calculate_form_and_goals (env.lastMatches md.away_team_id) = Except.ok fgA)
    (hoH : calculate_decimal_odds (lookupFractional odds_1x2 ("Home")) = Except.ok oddsH)
    (hoA : calculate_decimal_odds (lookupFractional odds_1x2 ("Away")) = Except.ok oddsA) :
    predict_match env match_id = Except.error PyExc.zeroDivisionError := by
  unfold predict_match
  simp only [hmd, get_match_prediction_info, extract_team_and_tournament_info, hli, hst]
  simp only [get_team_data_ok env md.home_team_id match_id g rest li true odds_1x2 fgH oddsH
      hfgH hodds hoH,
    get_team_data_ok env md.away_team_id match_id g rest li false odds_1x2 fgA oddsA
      hfgA hodds hoA]
  simp [factor_degenerate, hdeg]

/-- A fully-populated match-details fixture. -/
def mdFixture : MatchDetails :=
  { tournament_id := some "t1", season_id := some "s1",
    home_team_id := some "h1", away_team_id := some "a1",
    home_team_name := some "Alpha", away_team_name := some "Beta" }

/-- A full-time odds market quoting all three outcomes. -/
def marketsFixture : List Market :=
  [{ marketName := "Full time",
     choices := [{ name := "Home", fractionalValue := "1/2", change := 0 },
                 { name := "Draw", fractionalValue := "5/2", change := 0 },
                 { name := "Away", fractionalValue := "4/1", change := 0 }] }]

/-- A baseline with zero decided matches and zero goals. -/
def liZero : LeagueInfo := { goals := 0, homeTeamWins := 0, awayTeamWins := 0, draws := 0 }

/-- A baseline with a nonzero goal count but still zero decided matches. -/
def liZeroB : LeagueInfo := { goals := 5, homeTeamWins := 0, awayTeamWins := 0, draws := 0 }

/-- The association list `get_match_odds_1x2` extracts from
`marketsFixture`. -/
def odds1x2Fixture : List (String × String × Int) :=
  [("Home", "1/2", 0), ("Draw", "5/2", 0), ("Away", "4/1", 0)]

/-- An environment in which everything is available — details, league info,
standings, odds, cached results — with the league baseline a parameter. -/
def envDegen (li : LeagueInfo) : Env :=
  { matchDetails := fun _ => some mdFixture,
    leagueInfo := fun _ _ => some li,
    standingsTbl := fun _ _ => some [gFixture],
    matchOdds := fun _ => some marketsFixture,
    lastMatches := fun _ => [] }

/-- C2 counterexample: with every prerequisite present but a baseline of
zero decided matches, `predict_match` ends in an uncaught
`ZeroDivisionError` — a crash, not the descriptive failure message the claim
requires. -/
theorem predict_match_degenerate_cex :
    predict_match (envDegen liZero) ("m1") = Except.error PyExc.zeroDivisionError := by
  have hmd : (envDegen liZero).matchDetails ("m1") = some mdFixture := rfl
  have hli : (envDegen liZero).leagueInfo mdFixture.tournament_id mdFixture.season_id =
      some liZero := rfl
  have hst : (envDegen liZero).standingsTbl mdFixture.tournament_id mdFixture.season_id =
      some (gFixture :: []) := rfl
  have hodds : get_match_odds_1x2 (envDegen liZero) ("m1") = some odds1x2Fixture := by decide
  have hfgH : calculate_form_and_goals ((envDegen liZero).lastMatches mdFixture.home_team_id) =
      Except.ok ((0 : Int), (0 : Int)) := rfl
  have hfgA : calculate_form_and_goals ((envDegen liZero).lastMatches mdFixture.away_team_id) =
      Except.ok ((0 : Int), (0 : Int)) := rfl
  have hoH : calculate_decimal_odds (lookupFractional odds1x2Fixture ("Home")) =
      Except.ok (1 + (1 : ℚ) / (2 : ℚ)) := by
    have hl : lookupFractional odds1x2Fixture ("Home") = "1/2" := by decide
    have hp : parseTwoInts ("1/2") = some (1, 2) := by decide
    rw [hl]
    simp [calculate_decimal_odds, hp]
  have hoA : calculate_decimal_odds (lookupFractional odds1x2Fixture ("Away")) =
      Except.ok (1 + (4 : ℚ) / (1 : ℚ)) := by
    have hl : lookupFractional odds1x2Fixture ("Away") = "4/1" := by decide
    have hp : parseTwoInts ("4/1") = some (4, 1) := by decide
    rw [hl]
    simp [calculate_decimal_odds, hp]
  unfold predict_match
  simp only [hmd, get_match_prediction_info, extract_team_and_tournament_info, hli, hst]
  simp only [get_team_data_ok (envDegen liZero) mdFixture.home_team_id ("m1") gFixture []
      liZero true odds1x2Fixture ((0 : Int), (0 : Int)) (1 + (1 : ℚ) / (2 : ℚ))
      hfgH hodds hoH,
    get_team_data_ok (envDegen liZero) mdFixture.away_team_id ("m1") gFixture []
      liZero false odds1x2Fixture ((0 : Int), (0 : Int)) (1 + (4 : ℚ) / (1 : ℚ))
      hfgA hodds hoA]
  simp [factor_degenerate, show decidedMatches liZero = 0 from by decide]

/-- C2 witness: the amended statement applied to a second degenerate
baseline (nonzero goal total, zero decided matches). -/
theorem predict_match_degenerate_witness :
    predict_match (envDegen liZeroB) ("m1") = Except.error PyExc.zeroDivisionError :=
  predict_match_degenerate (envDegen liZeroB) ("m1") mdFixture liZeroB gFixture []
    ([("Home", "1/2", 0), ("Draw", "5/2", 0), ("Away", "4/1", 0)]) (0, 0) (0, 0)
    (1 + (1 : ℚ) / (2 : ℚ)) (1 + (4 : ℚ) / (1 : ℚ))
    rfl rfl (by decide) rfl (by decide) rfl rfl
    (by
      have h2 : parseTwoInts ("1/2") = some (1, 2) := by decide
      have h4 : lookupFractional
          ([("Home", "1/2", 0), ("Draw", "5/2", 0), ("Away", "4/1", 0)]) ("Home") =
          "1/2" := by decide
      simp [h4, calculate_decimal_odds, h2])
    (by
      have h3 : parseTwoInts ("4/1") = some (4, 1) := by decide
      have h5 : lookupFractional
          ([("Home", "1/2", 0), ("Draw", "5/2", 0), ("Away", "4/1", 0)]) ("Away") =
          "4/1" := by decide
      simp [h5, calculate_decimal_odds, h3])

/-- C5 counterexample: with match details, league info and standings all
available but the odds payload missing, `predict_match` does not return a
stage-identifying string — the `.get` call on the `None` returned by
`get_match_odds_1x2` raises `AttributeError`, which propagates uncaught. -/
theorem predict_match_missing_odds_cex :
    predict_match
      { matchDetails := fun _ => some mdFixture,
        leagueInfo := fun _ _ => some liNormal,
        standingsTbl := fun _ _ => some (gFixture :: []),
        matchOdds := fun _ => none,
        lastMatches := fun _ => [] } ("m1") = Except.error PyExc.attributeError := by
  decide

/-- C5 (amended): the orchestrator returns distinct stage-identifying
failure strings for an unresolvable match id, missing league info and
missing standings; but the two remaining prerequisites of the claim are not
handled that way — a missing odds payload raises `AttributeError` inside
`get_team_data` (and a zero-match baseline raises `ZeroDivisionError`, see
the C2 theorems) instead of producing a failure string. -/
theorem predict_match_stage_strings :
    (∀ (env : Env) (match_id : String),
      env.matchDetails match_id = none →
      predict_match env match_id =
        Except.ok (PredictOutcome.failure (msg_no_details match_id))) ∧
    (∀ (env : Env) (match_id : String) (md : MatchDetails),
      env.matchDetails match_id = some md →
      env.leagueInfo md.tournament_id md.season_id = none →
      predict_match env match_id = Except.ok (PredictOutcome.failure msg_no_league)) ∧
    (∀ (env : Env) (match_id : String) (md : MatchDetails) (li : LeagueInfo),
      env.matchDetails match_id = some md →
      env.leagueInfo md.tournament_id md.season_id = some li →
      env.standingsTbl md.tournament_id md.season_id = none →
      predict_match env match_id = Except.ok (PredictOutcome.failure msg_no_standings)) ∧
    (∀ (env : Env) (match_id : String) (md : MatchDetails) (li : LeagueInfo)
        (st : Standings) (fg : Int × Int),
      env.matchDetails match_id = some md →
      env.leagueInfo md.tournament_id md.season_id = some li →
      env.standingsTbl md.tournament_id md.season_id = some st →
      calculate_form_and_goals (env.lastMatches md.home_team_id) = Except.ok fg →
      get_match_odds_1x2 env match_id = none →
      predict_match env match_id = Except.error PyExc.attributeError) ∧
    (∀ match_id : String,
      msg_no_details match_id ≠ msg_no_league ∧
      msg_no_details match_id ≠ msg_no_standings ∧
      msg_no_league ≠ msg_no_standings) := by
  refine ⟨?_, ?_, ?_, ?_, ?_⟩
  · intro env match_id hmd
    unfold predict_match
    simp only [hmd]
  · intro env match_id md hmd hli
    unfold predict_match
    simp only [hmd, get_match_prediction_info, extract_team_and_tournament_info, hli]
  · intro env match_id md li hmd hli hst
    unfold predict_match
    simp only [hmd, get_match_prediction_info, extract_team_and_tournament_info, hli, hst]
  · intro env match_id md li st fg hmd hli hst hfg hodds
    unfold predict_match get_team_data
    simp only [hmd, get_match_prediction_info, extract_team_and_tournament_info, hli, hst,
      hfg, hodds]
  · intro match_id
    have l1 : ("Unable to fetch match details for match ID: ").length = 44 := by decide
    have l2 : (". Check if the match ID is correct.").length = 35 := by decide
    have l3 : msg_no_league.length = 28 := by decide
    have l4 : msg_no_standings.length = 26 := by decide
    have hlen : (msg_no_details match_id).length = 79 + match_id.length := by
      rw [msg_no_details, String.length_append, String.length_append, l1, l2]
      omega
    refine ⟨?_, ?_, by decide⟩
    · intro h
      have := congrArg String.length h
      rw [hlen, l3] at this
      omega
    · intro h
      have := congrArg String.length h
      rw [hlen, l4] at this
      omega

/-- C5 witness: the three stage strings produced on concrete environments,
the crash on a concrete odds-less environment, and the distinctness of the
strings for a concrete match id. -/
theorem predict_match_stage_strings_witness :
    predict_match
      { matchDetails := fun _ => none, leagueInfo := fun _ _ => some liNormal,
        standingsTbl := fun _ _ => some (gFixture :: []),
        matchOdds := fun _ => some marketsFixture, lastMatches := fun _ => [] } ("m7") =
      Except.ok (PredictOutcome.failure (msg_no_details ("m7"))) ∧
    predict_match
      { matchDetails := fun _ => some mdFixture, leagueInfo := fun _ _ => none,
        standingsTbl := fun _ _ => some (gFixture :: []),
        matchOdds := fun _ => some marketsFixture, lastMatches := fun _ => [] } ("m7") =
      Except.ok (PredictOutcome.failure msg_no_league) ∧
    predict_match
      { matchDetails := fun _ => some mdFixture, leagueInfo := fun _ _ => some liNormal,
        standingsTbl := fun _ _ => none,
        matchOdds := fun _ => some marketsFixture, lastMatches := fun _ => [] } ("m7") =
      Except.ok (PredictOutcome.failure msg_no_standings) ∧
    predict_match
      { matchDetails := fun _ => some mdFixture, leagueInfo := fun _ _ => some liNormal,
        standingsTbl := fun _ _ => some (gFixture :: []),
        matchOdds := fun _ => none, lastMatches := fun _ => ["Away: B\n1 - 3"] } ("m7") =
      Except.error PyExc.attributeError ∧
    (msg_no_details ("m7") ≠ msg_no_league ∧
     msg_no_details ("m7") ≠ msg_no_standings ∧
     msg_no_league ≠ msg_no_standings) :=
  ⟨predict_match_stage_strings.1 _ ("m7") rfl,
   predict_match_stage_strings.2.1 _ ("m7") mdFixture rfl rfl,
   predict_match_stage_strings.2.2.1 _ ("m7") mdFixture liNormal rfl rfl rfl,
   predict_match_stage_strings.2.2.2.1 _ ("m7") mdFixture liNormal (gFixture :: [])
     ((3 : Int), (3 : Int)) rfl rfl rfl (by decide) rfl,
   predict_match_stage_strings.2.2.2.2 ("m7")⟩
